import Mathlib

/-!
Verification of the Garmin Connect -> OpenStreetMap GPX sync utility
(`main.py`, `migrate_txt_to_db.py`).

Shallow embedding conventions:
* Python `None` / a missing JSON field is `Option.none`; Python string
  truthiness is modelled by `truthy` (`None` and `""` are falsy).
* Timestamps are integers (seconds); `datetime.now` is an explicit `now`
  parameter.  Columns holding only wall-clock timestamps
  (`uploaded_at`, `obtained_at`) carry no control-flow information and are
  omitted from the embedded records.
* Network and filesystem effects are driven by an explicit environment
  (`UploadEnv`) of oracles: HTTP status codes for each upload attempt,
  download success, and the token-endpoint response of a refresh call.
  An `Option` result of `none` for a remote call means the Python code
  raised; the embedding then follows the corresponding `except`/`finally`
  control flow of `main.py` explicitly.
* The run produces a trace of `Event`s (downloads, upload attempts with
  the bearer token used, refresh calls, sleeps) so that ordering and
  counting claims can be stated about it.
-/

namespace GarminOsmSync

/-- Python string conversion `str(x)` for an optional string:
`str(None) = "None"`. -/
def pyStr : Option String → String
  | none => "None"
  | some s => s

/-- Python truthiness of an optional string: `None` and `""` are falsy. -/
def truthy : Option String → Bool
  | none => false
  | some s => !(s == "")

/-- The stored token record (`tokens.json`), from `main.py`
`refresh_tokens` / `exchange_code_for_tokens`.  `expires_at` is the parsed
absolute expiry timestamp; `obtained_at` is omitted (timestamp only). -/
structure TokenRecord where
  access_token : Option String
  refresh_token : Option String
  expires_at : Option Int
  scope : Option String
deriving DecidableEq, Repr

/-- The JSON body returned by the token endpoint, fields consumed by
`refresh_tokens` (`main.py` lines 199-206).  `none` means the field is
absent from the response. -/
structure TokenResp where
  access_token : Option String
  refresh_token : Option String
  expires_in : Option Int
  scope : Option String
deriving DecidableEq, Repr

/-- `refresh_tokens` (`main.py` lines 192-216): build the new token record
from the token-endpoint response.  `j.get("refresh_token", refresh_token)`
falls back to the refresh token used for the exchange when the response
omits the field; `if expires_in:` treats `0` as falsy. -/
def refresh_tokens (refresh_token : String) (resp : TokenResp) (now : Int) :
    TokenRecord :=
  { access_token := resp.access_token
    refresh_token := some (match resp.refresh_token with
      | some v => v
      | none => refresh_token)
    expires_at := match resp.expires_in with
      | some n => if n ≠ 0 then some (now + n) else none
      | none => none
    scope := resp.scope }

/-- `save_tokens` at the end of `refresh_tokens`: the single persisted
record is overwritten wholesale; the previous stored value is ignored. -/
def refresh_and_save (refresh_token : String) (resp : TokenResp) (now : Int)
    (_oldStore : Option TokenRecord) : Option TokenRecord :=
  some (refresh_tokens refresh_token resp now)

/-- Possible control-flow outcomes of `ensure_access_token`
(`main.py` lines 219-244). -/
inductive EnsureResult where
  /-- No stored record: the full interactive authorization flow runs. -/
  | interactive
  /-- Stored record is stale: a refresh exchange is performed with the
  stored refresh token. -/
  | refreshed (refreshToken : Option String)
  /-- Stored record is reused; its access token is returned unchanged. -/
  | reused (accessToken : Option String)
deriving DecidableEq, Repr

/-- `ensure_access_token` (`main.py` lines 219-244), with the stored
record as input and `datetime.now(timezone.utc)` as `now`.  The code
refreshes when `now + 60s >= expires_at` and reuses the stored access
token otherwise; an absent `expires_at` skips the check entirely. -/
def ensure_access_token (tokens : Option TokenRecord) (now : Int) :
    EnsureResult :=
  match tokens with
  | none => .interactive
  | some tr =>
    match tr.expires_at with
    | some exp =>
      if now + 60 ≥ exp then .refreshed tr.refresh_token
      else .reused tr.access_token
    | none => .reused tr.access_token

/-- A row of the `processed_activities` table.  The `uploaded_at` and
`metadata` columns are omitted: `uploaded_at` is a wall-clock timestamp
and `metadata` is always `NULL` in the source. -/
structure LedgerRow where
  activity_id : String
  gpx_id : Option String
  status : String
deriving DecidableEq, Repr

/-- `get_processed_ids` (`main.py` lines 284-296): all keys of the table,
regardless of status. -/
def get_processed_ids (ledger : List LedgerRow) : List String :=
  ledger.map (·.activity_id)

/-- `add_processed_id` (`main.py` lines 299-311): `INSERT OR REPLACE`
keyed on `activity_id`. -/
def add_processed_id (ledger : List LedgerRow) (activity_id : String)
    (gpx_id : Option String) (status : String) : List LedgerRow :=
  ⟨activity_id, gpx_id, status⟩ ::
    ledger.filter (fun r => !(r.activity_id == activity_id))

/-- Lookup of the ledger row for a key. -/
def ledgerFind (ledger : List LedgerRow) (k : String) : Option LedgerRow :=
  ledger.find? (fun r => r.activity_id == k)

/-- Whether a character is stripped by the Python `str.strip()`. -/
def isPyWs (c : Char) : Bool :=
  c == ' ' || c == '\t' || c == '\n' || c == '\r' || c == '\x0b' || c == '\x0c'

/-- Drop leading whitespace characters. -/
def dropLeadingWs : List Char → List Char
  | [] => []
  | c :: cs => if isPyWs c then dropLeadingWs cs else c :: cs

/-- Python `line.strip()`: remove leading and trailing whitespace.
Defined by structural recursion so that concrete instances evaluate. -/
def pyStrip (s : String) : String :=
  ⟨(dropLeadingWs (dropLeadingWs s.data).reverse).reverse⟩

/-- SQLite `INSERT OR IGNORE`: insert only when no row with the key
exists (`migrate_txt_to_db.py` line 29). -/
def insertOrIgnore (ledger : List LedgerRow) (r : LedgerRow) :
    List LedgerRow :=
  if ledger.any (fun q => q.activity_id == r.activity_id) then ledger
  else r :: ledger

/-- One iteration of the migration loop (`migrate_txt_to_db.py`
lines 24-30): strip the line, skip it when empty, otherwise
`INSERT OR IGNORE` a row with status `migrated`. -/
def migrate_step (ledger : List LedgerRow) (line : String) :
    List LedgerRow :=
  let aid := pyStrip line
  if aid == "" then ledger
  else insertOrIgnore ledger ⟨aid, none, "migrated"⟩

/-- The whole migration run over the lines of `processed_ids.txt`. -/
def migrate (ledger : List LedgerRow) (lines : List String) :
    List LedgerRow :=
  lines.foldl migrate_step ledger

/-- An activity record as consumed by `main` from the provider list.
Only the fields read by the sync loop are kept; the descriptive fields
feed the upload description and tags and carry no control flow. -/
structure Activity where
  activityId : Option String
  activityName : Option String
  typeKey : String
  startTime : Option String
deriving DecidableEq, Repr

/-- Trace events emitted by the embedded sync loop. -/
inductive Event where
  /-- A successful `download_activity` call followed by writing the GPX
  file for the given activity id. -/
  | download (id : String)
  /-- A `download_activity` call that raised for the given activity id. -/
  | downloadFail (id : String)
  /-- An `upload_gpx_with_bearer` call: activity id, bearer access token
  used, HTTP status code of the response. -/
  | upload (id : String) (token : Option String) (status : Nat)
  /-- A `refresh_tokens` call with the given stored refresh token. -/
  | refreshCall (oldRefresh : String)
  /-- The `time.sleep(sleep_time)` call at the end of an iteration. -/
  | sleep (n : Nat)
deriving DecidableEq, Repr

/-- The activity id an event refers to, when it refers to one. -/
def evActId : Event → Option String
  | .download i => some i
  | .downloadFail i => some i
  | .upload i _ _ => some i
  | _ => none

/-- Whether the event is an upload attempt. -/
def isUploadEv : Event → Bool
  | .upload _ _ _ => true
  | _ => false

/-- Whether the event is a refresh-token exchange. -/
def isRefreshEv : Event → Bool
  | .refreshCall _ => true
  | _ => false

/-- The ids of successful downloads in a trace, in order. -/
def downloadIds (evs : List Event) : List String :=
  evs.filterMap (fun e => match e with
    | .download i => some i
    | _ => none)

/-- The ids of upload attempts in a trace, in order. -/
def uploadIds (evs : List Event) : List String :=
  evs.filterMap (fun e => match e with
    | .upload i _ _ => some i
    | _ => none)

/-- The sleep durations in a trace, in order. -/
def sleepTimes (evs : List Event) : List Nat :=
  evs.filterMap (fun e => match e with
    | .sleep n => some n
    | _ => none)

/-- The filesystem path of the downloaded GPX file
(`DOWNLOAD_DIR / f"{activity_id}.gpx"`). -/
def gpxPath (id : String) : String := "downloads/" ++ id ++ ".gpx"

/-- Writing a file: the path exists afterwards. -/
def fsWrite (fs : List String) (p : String) : List String :=
  if p ∈ fs then fs else p :: fs

/-- The `finally` cleanup (`main.py` lines 412-417):
`if gpx_path.exists(): gpx_path.unlink()` — the path does not exist
afterwards. -/
def fsUnlink (fs : List String) (p : String) : List String :=
  fs.filter (fun q => !(q == p))

/-- Mutable state threaded through the sync loop: the `access_token`
local variable, the contents of `tokens.json`, the download directory,
and the `processed_activities` table. -/
structure SyncState where
  accessToken : Option String
  stored : Option TokenRecord
  fs : List String
  ledger : List LedgerRow
deriving DecidableEq, Repr

/-- Oracles for the remote calls made during one run. -/
structure UploadEnv where
  /-- Whether `download_activity` succeeds for the given activity id. -/
  downloadOk : String → Bool
  /-- HTTP status of the first upload attempt for the given id. -/
  status1 : String → Nat
  /-- HTTP status of the retried upload for the given id, when one
  happens. -/
  status2 : String → Nat
  /-- Token-endpoint response of a refresh call; `none` means the POST
  raised. -/
  refreshResp : Option TokenResp
  /-- Wall-clock time used to compute `expires_at` on refresh. -/
  now : Int

/-- One iteration of the per-activity loop (`main.py` lines 362-417):
skip falsy ids, download the GPX bytes (an exception goes to the
`finally` cleanup), then either record a ledger row directly (dry run)
or upload with the current bearer token, refreshing and retrying exactly
once on a 401 when a stored refresh token is available.  A response is
`ok` when its status is below 400.  Returns the new state and the events
of this iteration. -/
def processOne (E : UploadEnv) (dryRun : Bool) (sleepTime : Nat)
    (st : SyncState) (act : Activity) : SyncState × List Event :=
  if truthy act.activityId then
    let id := pyStr act.activityId
    let path := gpxPath id
    if E.downloadOk id then
      let fs1 := fsWrite st.fs path
      if dryRun then
        ({ st with fs := fsUnlink fs1 path
                   ledger := add_processed_id st.ledger id none "uploaded" },
         [Event.download id, Event.sleep sleepTime])
      else
        let s1 := E.status1 id
        if s1 = 401 then
          match st.stored with
          | some tr =>
            if truthy tr.refresh_token then
              let rt := pyStr tr.refresh_token
              match E.refreshResp with
              | none =>
                ({ st with fs := fsUnlink fs1 path },
                 [Event.download id, Event.upload id st.accessToken s1,
                  Event.refreshCall rt])
              | some resp =>
                let newRec := refresh_tokens rt resp E.now
                let s2 := E.status2 id
                ({ accessToken := newRec.access_token
                   stored := some newRec
                   fs := fsUnlink fs1 path
                   ledger := if s2 < 400 then
                       add_processed_id st.ledger id none "uploaded"
                     else st.ledger },
                 [Event.download id, Event.upload id st.accessToken s1,
                  Event.refreshCall rt,
                  Event.upload id newRec.access_token s2,
                  Event.sleep sleepTime])
            else
              ({ st with fs := fsUnlink fs1 path },
               [Event.download id, Event.upload id st.accessToken s1,
                Event.sleep sleepTime])
          | none =>
            ({ st with fs := fsUnlink fs1 path },
             [Event.download id, Event.upload id st.accessToken s1,
              Event.sleep sleepTime])
        else
          ({ st with fs := fsUnlink fs1 path
                     ledger := if s1 < 400 then
                         add_processed_id st.ledger id none "uploaded"
                       else st.ledger },
           [Event.download id, Event.upload id st.accessToken s1,
            Event.sleep sleepTime])
    else
      ({ st with fs := fsUnlink st.fs path }, [Event.downloadFail id])
  else (st, [])

/-- The per-activity loop over a list of activities, accumulating the
trace. -/
def runLoop (E : UploadEnv) (dryRun : Bool) (sleepTime : Nat) :
    SyncState → List Activity → SyncState × List Event
  | st, [] => (st, [])
  | st, a :: rest =>
    let r1 := processOne E dryRun sleepTime st a
    let r2 := runLoop E dryRun sleepTime r1.1 rest
    (r2.1, r1.2 ++ r2.2)

/-- The body of `main` from the ledger load onward (`main.py`
lines 338-417): filter the provider list (newest-first) against the
recorded ids, return early when nothing is new, truncate to the last 5
with a sleep of 10 in `--history` mode (sleep 1 otherwise), and iterate
the remaining activities in reversed (oldest-first) order. -/
def runSync (E : UploadEnv) (history dryRun : Bool)
    (activities : List Activity) (st0 : SyncState) :
    SyncState × List Event :=
  let processed := get_processed_ids st0.ledger
  let newActs := activities.filter
    (fun a => !(decide (pyStr a.activityId ∈ processed)))
  if newActs.isEmpty then (st0, [])
  else
    let sel := if history then newActs.drop (newActs.length - 5)
      else newActs
    runLoop E dryRun (if history then 10 else 1) st0 sel.reverse

/-! Concrete instances used to instantiate the theorems below on closed
inputs. -/

/-- A token-endpoint response that includes a refresh token. -/
def sampleResp : TokenResp := ⟨some "NEWAT", some "NEWRT", some 3600, none⟩

/-- A token-endpoint response whose refresh_token field is omitted. -/
def sampleRespNoRT : TokenResp := ⟨some "NEWAT", none, some 3600, none⟩

/-- A stored token record with a refresh token. -/
def tokRec : TokenRecord := ⟨some "TOK", some "RT", some 5000, none⟩

/-- An environment in which every remote call succeeds. -/
def envOk : UploadEnv :=
  ⟨fun _ => true, fun _ => 200, fun _ => 200, some sampleResp, 1000⟩

/-- An environment in which every first upload attempt is rejected with
HTTP 401 and the retried upload succeeds. -/
def env401 : UploadEnv :=
  ⟨fun _ => true, fun _ => 401, fun _ => 200, some sampleResp, 1000⟩

/-- A starting state with valid stored tokens and an empty ledger. -/
def stBase : SyncState := ⟨some "TOK", some tokRec, [], []⟩

/-- A starting state with no stored token record. -/
def stNoStored : SyncState := ⟨some "TOK", none, [], []⟩

/-- An activity with the given id. -/
def actOf (s : String) : Activity := ⟨some s, none, "running", none⟩

/-- Eight new activities reported newest-first, id 1 the oldest. -/
def actsEight : List Activity :=
  [actOf "8", actOf "7", actOf "6", actOf "5", actOf "4", actOf "3",
   actOf "2", actOf "1"]

/-! Supporting lemmas about the migration script. -/

lemma mem_keys_insertOrIgnore {L : List LedgerRow} {r : LedgerRow}
    {k : String} (h : k ∈ get_processed_ids L) :
    k ∈ get_processed_ids (insertOrIgnore L r) := by
  unfold insertOrIgnore
  split
  · exact h
  · simpa [get_processed_ids] using Or.inr (by simpa [get_processed_ids] using h)

lemma mem_keys_migrate_step {L : List LedgerRow} {line k : String}
    (h : k ∈ get_processed_ids L) :
    k ∈ get_processed_ids (migrate_step L line) := by
  simp only [migrate_step]
  split
  · exact h
  · exact mem_keys_insertOrIgnore h

lemma keys_migrate_mono {lines : List String} :
    ∀ {L : List LedgerRow} {k : String}, k ∈ get_processed_ids L →
      k ∈ get_processed_ids (migrate L lines) := by
  induction lines with
  | nil => exact fun h => h
  | cons x xs ih => exact fun h => ih (mem_keys_migrate_step h)

lemma trim_mem_keys_migrate_step {L : List LedgerRow} {line : String}
    (h : pyStrip line ≠ "") :
    pyStrip line ∈ get_processed_ids (migrate_step L line) := by
  simp only [migrate_step]
  rw [if_neg (by simpa using h)]
  unfold insertOrIgnore
  split
  · next hany =>
    obtain ⟨q, hq, hbeq⟩ := List.any_eq_true.mp hany
    exact List.mem_map.mpr ⟨q, hq, eq_of_beq hbeq⟩
  · simp [get_processed_ids]

lemma trim_mem_keys_migrate {lines : List String} :
    ∀ {L : List LedgerRow} {line : String}, line ∈ lines → pyStrip line ≠ "" →
      pyStrip line ∈ get_processed_ids (migrate L lines) := by
  induction lines with
  | nil => intro L line h; simp at h
  | cons x xs ih =>
    intro L line h hne
    rcases List.mem_cons.mp h with rfl | h2
    · show pyStrip line ∈ get_processed_ids (migrate (migrate_step L line) xs)
      exact keys_migrate_mono (trim_mem_keys_migrate_step hne)
    · exact ih h2 hne

lemma migrate_step_noop {L : List LedgerRow} {line : String}
    (h : pyStrip line = "" ∨ pyStrip line ∈ get_processed_ids L) :
    migrate_step L line = L := by
  simp only [migrate_step]
  by_cases he : pyStrip line = ""
  · rw [if_pos (by simpa using he)]
  · rw [if_neg (by simpa using he)]
    rcases h with h | h
    · exact absurd h he
    · obtain ⟨q, hq, hqk⟩ := List.mem_map.mp h
      unfold insertOrIgnore
      rw [if_pos (List.any_eq_true.mpr ⟨q, hq, by simpa using hqk⟩)]

lemma migrate_noop {lines : List String} :
    ∀ {L : List LedgerRow},
      (∀ line ∈ lines, pyStrip line = "" ∨ pyStrip line ∈ get_processed_ids L) →
      migrate L lines = L := by
  induction lines with
  | nil => intro L _; rfl
  | cons x xs ih =>
    intro L h
    show migrate (migrate_step L x) xs = L
    rw [migrate_step_noop (h x (List.mem_cons_self x xs))]
    exact ih (fun line hl => h line (List.mem_cons_of_mem _ hl))

lemma migrate_rows {lines : List String} :
    ∀ {L : List LedgerRow} {r : LedgerRow}, r ∈ migrate L lines →
      r ∈ L ∨ (r.gpx_id = none ∧ r.status = "migrated") := by
  induction lines with
  | nil => exact fun h => Or.inl h
  | cons x xs ih =>
    intro L r h
    rcases ih h with h2 | h2
    · revert h2
      simp only [migrate_step]
      split
      · exact Or.inl
      · unfold insertOrIgnore
        split
        · exact Or.inl
        · intro h2
          rcases List.mem_cons.mp h2 with rfl | h3
          · exact Or.inr ⟨rfl, rfl⟩
          · exact Or.inl h3
    · exact Or.inr h2

lemma countKey_migrate_step_le {L : List LedgerRow} {line k : String}
    (h : L.countP (fun r => r.activity_id == k) ≤ 1) :
    (migrate_step L line).countP (fun r => r.activity_id == k) ≤ 1 := by
  simp only [migrate_step]
  split
  · exact h
  · unfold insertOrIgnore
    split
    · exact h
    · next hany =>
      rw [List.countP_cons]
      by_cases hk : pyStrip line = k
      · have h0 : L.countP (fun r => r.activity_id == k) = 0 := by
          rw [List.countP_eq_zero]
          intro q hq hqk
          exact hany (List.any_eq_true.mpr ⟨q, hq, by
            simpa [hk] using hqk⟩)
        simp [h0, hk]
      · simp only []
        rw [if_neg (by simpa using hk)]
        omega

lemma countKey_migrate_le {lines : List String} :
    ∀ {L : List LedgerRow} {k : String},
      L.countP (fun r => r.activity_id == k) ≤ 1 →
      (migrate L lines).countP (fun r => r.activity_id == k) ≤ 1 := by
  induction lines with
  | nil => exact fun h => h
  | cons x xs ih => exact fun h => ih (countKey_migrate_step_le h)

/-- C8: migrating a legacy newline-delimited file inserts, for every line
carrying an identifier (non-empty after stripping), exactly one ledger
row keyed by that identifier with status `migrated`, and running the
migration a second time on the same lines is a no-op. -/
theorem C8_migration_idempotent (lines : List String) :
    (∀ line ∈ lines, pyStrip line ≠ "" →
      ((migrate [] lines).countP (fun r => r.activity_id == pyStrip line) = 1
        ∧ ∃ r ∈ migrate [] lines,
            r.activity_id = pyStrip line ∧ r.status = "migrated"))
    ∧ ∀ L, migrate (migrate L lines) lines = migrate L lines := by
  constructor
  · intro line hmem hne
    have hkey := trim_mem_keys_migrate (L := []) hmem hne
    obtain ⟨r, hr, hrk⟩ := List.mem_map.mp hkey
    have hstat : r.status = "migrated" := by
      rcases migrate_rows hr with h | h
      · simp at h
      · exact h.2
    refine ⟨?_, r, hr, hrk, hstat⟩
    have hle := @countKey_migrate_le lines [] (pyStrip line) (by simp)
    have hpos :
        0 < (migrate [] lines).countP (fun q => q.activity_id == pyStrip line) :=
      List.countP_pos_iff.mpr ⟨r, hr, by simpa using hrk⟩
    omega
  · intro L
    apply migrate_noop
    intro line hl
    by_cases h : pyStrip line = ""
    · exact Or.inl h
    · exact Or.inr (trim_mem_keys_migrate hl h)

/-- Witness for C8 on the legacy file {"111", "222"}. -/
theorem C8_witness :
    (migrate [] ["111", "222"]).countP
        (fun r => r.activity_id == pyStrip "111") = 1
    ∧ (∃ r ∈ migrate [] ["111", "222"],
        r.activity_id = pyStrip "111" ∧ r.status = "migrated")
    ∧ migrate (migrate [] ["111", "222"]) ["111", "222"] =
        migrate [] ["111", "222"] := by
  have h := C8_migration_idempotent ["111", "222"]
  have h1 := h.1 "111" (by decide) (by decide)
  exact ⟨h1.1, h1.2, h.2 []⟩

/-- C4: with `expires_at` present, the stored access token is reused
without a refresh call iff `now + 60 < expires_at`, a refresh exchange is
performed otherwise, and with `expires_at` absent the stored record is
always reused. -/
theorem C4_token_freshness_boundary (tr : TokenRecord) (now exp : Int) :
    (tr.expires_at = some exp →
      ((now + 60 < exp →
          ensure_access_token (some tr) now = .reused tr.access_token)
        ∧ (exp ≤ now + 60 →
          ensure_access_token (some tr) now = .refreshed tr.refresh_token)))
    ∧ (tr.expires_at = none →
        ensure_access_token (some tr) now = .reused tr.access_token) := by
  constructor
  · intro h
    constructor
    · intro hlt
      simp only [ensure_access_token, h]
      rw [if_neg (by omega)]
    · intro hle
      simp only [ensure_access_token, h]
      rw [if_pos (by omega)]
  · intro h
    simp only [ensure_access_token, h]

/-- Witness for C4 at the 59 and 61 second boundaries and with
`expires_at` absent. -/
theorem C4_witness :
    ensure_access_token (some ⟨some "A", some "R", some 59, none⟩) 0 =
      EnsureResult.refreshed (some "R")
    ∧ ensure_access_token (some ⟨some "A", some "R", some 61, none⟩) 0 =
      EnsureResult.reused (some "A")
    ∧ ensure_access_token (some ⟨some "A", some "R", none, none⟩) 0 =
      EnsureResult.reused (some "A") :=
  ⟨((C4_token_freshness_boundary ⟨some "A", some "R", some 59, none⟩ 0
      59).1 rfl).2 (by omega),
   ((C4_token_freshness_boundary ⟨some "A", some "R", some 61, none⟩ 0
      61).1 rfl).1 (by omega),
   (C4_token_freshness_boundary ⟨some "A", some "R", none, none⟩ 0
      0).2 rfl⟩

/-- C7: a refresh exchange carries the old refresh token forward when
the response omits one, takes the response value when present, and the
stored record is replaced wholesale regardless of its previous value. -/
theorem C7_refresh_token_carry (rt : String) (resp : TokenResp) (now : Int)
    (old : Option TokenRecord) :
    (resp.refresh_token = none →
      (refresh_tokens rt resp now).refresh_token = some rt)
    ∧ (∀ v, resp.refresh_token = some v →
      (refresh_tokens rt resp now).refresh_token = some v)
    ∧ refresh_and_save rt resp now old = some (refresh_tokens rt resp now) := by
  refine ⟨?_, ?_, rfl⟩
  · intro h; simp [refresh_tokens, h]
  · intro v h; simp [refresh_tokens, h]

/-- Witness for C7: a response without a refresh token keeps "RT", one
with "NEWRT" replaces it, and saving overwrites the old record. -/
theorem C7_witness :
    (refresh_tokens "RT" sampleRespNoRT 1000).refresh_token = some "RT"
    ∧ (refresh_tokens "RT" sampleResp 1000).refresh_token = some "NEWRT"
    ∧ refresh_and_save "RT" sampleResp 1000 (some tokRec) =
        some (refresh_tokens "RT" sampleResp 1000) :=
  ⟨(C7_refresh_token_carry "RT" sampleRespNoRT 1000 none).1 rfl,
   (C7_refresh_token_carry "RT" sampleResp 1000 none).2.1 "NEWRT" rfl,
   (C7_refresh_token_carry "RT" sampleResp 1000 (some tokRec)).2.2⟩

/-! Branch lemmas for one iteration of the sync loop. -/

lemma processOne_clean (E : UploadEnv) (n : Nat) (st : SyncState)
    (a : Activity) (h1 : truthy a.activityId = true)
    (h2 : E.downloadOk (pyStr a.activityId) = true)
    (h3 : E.status1 (pyStr a.activityId) ≠ 401) :
    processOne E false n st a =
      ({ st with
          fs := fsUnlink (fsWrite st.fs (gpxPath (pyStr a.activityId)))
            (gpxPath (pyStr a.activityId))
          ledger := if E.status1 (pyStr a.activityId) < 400 then
              add_processed_id st.ledger (pyStr a.activityId) none "uploaded"
            else st.ledger },
       [Event.download (pyStr a.activityId),
        Event.upload (pyStr a.activityId) st.accessToken
          (E.status1 (pyStr a.activityId)),
        Event.sleep n]) := by
  simp only [processOne, h1, h2, if_true, Bool.false_eq_true, if_false]
  rw [if_neg h3]

lemma processOne_dry (E : UploadEnv) (n : Nat) (st : SyncState)
    (a : Activity) (h1 : truthy a.activityId = true)
    (h2 : E.downloadOk (pyStr a.activityId) = true) :
    processOne E true n st a =
      ({ st with
          fs := fsUnlink (fsWrite st.fs (gpxPath (pyStr a.activityId)))
            (gpxPath (pyStr a.activityId))
          ledger := add_processed_id st.ledger (pyStr a.activityId) none
            "uploaded" },
       [Event.download (pyStr a.activityId), Event.sleep n]) := by
  simp only [processOne, h1, h2, if_true]

lemma processOne_401_refresh (E : UploadEnv) (n : Nat) (st : SyncState)
    (a : Activity) (tr : TokenRecord) (resp : TokenResp)
    (h1 : truthy a.activityId = true)
    (h2 : E.downloadOk (pyStr a.activityId) = true)
    (hst : st.stored = some tr) (hrt : truthy tr.refresh_token = true)
    (hresp : E.refreshResp = some resp)
    (h401 : E.status1 (pyStr a.activityId) = 401) :
    processOne E false n st a =
      ({ accessToken :=
            (refresh_tokens (pyStr tr.refresh_token) resp E.now).access_token
         stored := some (refresh_tokens (pyStr tr.refresh_token) resp E.now)
         fs := fsUnlink (fsWrite st.fs (gpxPath (pyStr a.activityId)))
            (gpxPath (pyStr a.activityId))
         ledger := if E.status2 (pyStr a.activityId) < 400 then
             add_processed_id st.ledger (pyStr a.activityId) none "uploaded"
           else st.ledger },
       [Event.download (pyStr a.activityId),
        Event.upload (pyStr a.activityId) st.accessToken 401,
        Event.refreshCall (pyStr tr.refresh_token),
        Event.upload (pyStr a.activityId)
          (refresh_tokens (pyStr tr.refresh_token) resp E.now).access_token
          (E.status2 (pyStr a.activityId)),
        Event.sleep n]) := by
  simp only [processOne, h1, h2, if_true, Bool.false_eq_true, if_false,
    hst, hrt, hresp]
  rw [if_pos h401, h401]

lemma processOne_401_refreshRaise (E : UploadEnv) (n : Nat) (st : SyncState)
    (a : Activity) (tr : TokenRecord)
    (h1 : truthy a.activityId = true)
    (h2 : E.downloadOk (pyStr a.activityId) = true)
    (hst : st.stored = some tr) (hrt : truthy tr.refresh_token = true)
    (hresp : E.refreshResp = none)
    (h401 : E.status1 (pyStr a.activityId) = 401) :
    processOne E false n st a =
      ({ st with
          fs := fsUnlink (fsWrite st.fs (gpxPath (pyStr a.activityId)))
            (gpxPath (pyStr a.activityId)) },
       [Event.download (pyStr a.activityId),
        Event.upload (pyStr a.activityId) st.accessToken 401,
        Event.refreshCall (pyStr tr.refresh_token)]) := by
  simp only [processOne, h1, h2, if_true, Bool.false_eq_true, if_false,
    hst, hrt, hresp]
  rw [if_pos h401, h401]

lemma processOne_401_noStored (E : UploadEnv) (n : Nat) (st : SyncState)
    (a : Activity) (h1 : truthy a.activityId = true)
    (h2 : E.downloadOk (pyStr a.activityId) = true)
    (hst : st.stored = none)
    (h401 : E.status1 (pyStr a.activityId) = 401) :
    processOne E false n st a =
      ({ st with
          fs := fsUnlink (fsWrite st.fs (gpxPath (pyStr a.activityId)))
            (gpxPath (pyStr a.activityId)) },
       [Event.download (pyStr a.activityId),
        Event.upload (pyStr a.activityId) st.accessToken 401,
        Event.sleep n]) := by
  simp only [processOne, h1, h2, if_true, Bool.false_eq_true, if_false, hst]
  rw [if_pos h401, h401]

lemma processOne_401_noRefreshToken (E : UploadEnv) (n : Nat)
    (st : SyncState) (a : Activity) (tr : TokenRecord)
    (h1 : truthy a.activityId = true)
    (h2 : E.downloadOk (pyStr a.activityId) = true)
    (hst : st.stored = some tr) (hrt : truthy tr.refresh_token = false)
    (h401 : E.status1 (pyStr a.activityId) = 401) :
    processOne E false n st a =
      ({ st with
          fs := fsUnlink (fsWrite st.fs (gpxPath (pyStr a.activityId)))
            (gpxPath (pyStr a.activityId)) },
       [Event.download (pyStr a.activityId),
        Event.upload (pyStr a.activityId) st.accessToken 401,
        Event.sleep n]) := by
  simp only [processOne, h1, h2, if_true, Bool.false_eq_true, if_false,
    hst, hrt]
  rw [if_pos h401, h401]

/-- Every download or upload event of one iteration carries the id of
the iterated activity. -/
lemma processOne_actId (E : UploadEnv) (d : Bool) (n : Nat)
    (st : SyncState) (a : Activity) :
    ∀ e ∈ (processOne E d n st a).2, ∀ s, evActId e = some s →
      s = pyStr a.activityId := by
  intro e he s hs
  unfold processOne at he
  cases e with
  | download i =>
    simp only [evActId, Option.some.injEq] at hs
    subst hs
    repeat' split at he
    all_goals cases hdl : E.downloadOk (pyStr a.activityId) <;>
      by_cases hs1 : E.status1 (pyStr a.activityId) = 401 <;> simp_all
  | downloadFail i =>
    simp only [evActId, Option.some.injEq] at hs
    subst hs
    repeat' split at he
    all_goals cases hdl : E.downloadOk (pyStr a.activityId) <;>
      by_cases hs1 : E.status1 (pyStr a.activityId) = 401 <;> simp_all
  | upload i tok c =>
    simp only [evActId, Option.some.injEq] at hs
    subst hs
    repeat' split at he
    all_goals cases hdl : E.downloadOk (pyStr a.activityId) <;>
      by_cases hs1 : E.status1 (pyStr a.activityId) = 401 <;> simp_all
    all_goals tauto
  | refreshCall r => simp [evActId] at hs
  | sleep m => simp [evActId] at hs

/-- C9: after one iteration of the per-activity loop, the locally
downloaded GPX file of that activity does not exist, regardless of the
download, upload, refresh, or dry-run outcome. -/
theorem C9_cleanup_guarantee (E : UploadEnv) (d : Bool) (n : Nat)
    (st : SyncState) (a : Activity) (h : truthy a.activityId = true) :
    gpxPath (pyStr a.activityId) ∉ (processOne E d n st a).1.fs := by
  simp only [processOne, h, if_true]
  repeat' split
  all_goals simp [fsUnlink, List.mem_filter]

/-- Witness for C9: an activity whose upload is rejected with 401 and
whose refresh raises still leaves no GPX file behind. -/
theorem C9_witness :
    gpxPath (pyStr (actOf "999").activityId) ∉
      (processOne ⟨fun _ => true, fun _ => 401, fun _ => 500, none, 0⟩
        false 1 stBase (actOf "999")).1.fs :=
  C9_cleanup_guarantee ⟨fun _ => true, fun _ => 401, fun _ => 500, none, 0⟩
    false 1 stBase (actOf "999") (by decide)

/-! Lemmas about the whole per-activity loop. -/

lemma runLoop_cons (E : UploadEnv) (d : Bool) (n : Nat) (st : SyncState)
    (a : Activity) (rest : List Activity) :
    runLoop E d n st (a :: rest) =
      ((runLoop E d n (processOne E d n st a).1 rest).1,
       (processOne E d n st a).2 ++
         (runLoop E d n (processOne E d n st a).1 rest).2) := rfl

lemma uploadIds_append (x y : List Event) :
    uploadIds (x ++ y) = uploadIds x ++ uploadIds y := by
  simp [uploadIds]

lemma downloadIds_append (x y : List Event) :
    downloadIds (x ++ y) = downloadIds x ++ downloadIds y := by
  simp [downloadIds]

lemma sleepTimes_append (x y : List Event) :
    sleepTimes (x ++ y) = sleepTimes x ++ sleepTimes y := by
  simp [sleepTimes]

/-- Every download or upload event of a loop run carries the id of one
of the iterated activities. -/
lemma runLoop_actId (E : UploadEnv) (d : Bool) (n : Nat) :
    ∀ (l : List Activity) (st : SyncState), ∀ e ∈ (runLoop E d n st l).2,
      ∀ s, evActId e = some s → ∃ a ∈ l, s = pyStr a.activityId := by
  intro l
  induction l with
  | nil => intro st e he; simp [runLoop] at he
  | cons a rest ih =>
    intro st e he s hs
    rw [runLoop_cons] at he
    rcases List.mem_append.mp he with h | h
    · exact ⟨a, List.mem_cons_self a rest, processOne_actId E d n st a e h s hs⟩
    · obtain ⟨b, hb, hbs⟩ := ih _ e h s hs
      exact ⟨b, List.mem_cons_of_mem a hb, hbs⟩

/-- On a run in which every iterated activity has an id, downloads
succeed, the mode is not dry, and no upload is rejected with 401, the
loop downloads and uploads each activity once in list order and sleeps
the configured delay after each. -/
lemma runLoop_clean (E : UploadEnv) (n : Nat) :
    ∀ (l : List Activity) (st : SyncState),
      (∀ a ∈ l, truthy a.activityId = true) →
      (∀ a ∈ l, E.downloadOk (pyStr a.activityId) = true) →
      (∀ a ∈ l, E.status1 (pyStr a.activityId) ≠ 401) →
      uploadIds (runLoop E false n st l).2 =
          l.map (fun a => pyStr a.activityId)
        ∧ downloadIds (runLoop E false n st l).2 =
          l.map (fun a => pyStr a.activityId)
        ∧ sleepTimes (runLoop E false n st l).2 =
          List.replicate l.length n := by
  intro l
  induction l with
  | nil => intro st _ _ _; exact ⟨rfl, rfl, rfl⟩
  | cons a rest ih =>
    intro st h1 h2 h3
    have hstep := processOne_clean E n st a (h1 a (List.mem_cons_self a rest))
      (h2 a (List.mem_cons_self a rest)) (h3 a (List.mem_cons_self a rest))
    have hstep2 := congrArg Prod.snd hstep
    have ihr := ih (processOne E false n st a).1
      (fun b hb => h1 b (List.mem_cons_of_mem a hb))
      (fun b hb => h2 b (List.mem_cons_of_mem a hb))
      (fun b hb => h3 b (List.mem_cons_of_mem a hb))
    refine ⟨?_, ?_, ?_⟩
    · rw [runLoop_cons, uploadIds_append, hstep2, ihr.1]
      simp [uploadIds]
    · rw [runLoop_cons, downloadIds_append, hstep2, ihr.2.1]
      simp [downloadIds]
    · rw [runLoop_cons, sleepTimes_append, hstep2, ihr.2.2]
      simp [sleepTimes, List.replicate]

/-- C1: an activity whose stringified id is already a key of the ledger
at the start of the run, whatever the status of that entry, is never
downloaded and never uploaded during the run. -/
theorem C1_already_processed_skipped (E : UploadEnv) (history dryRun : Bool)
    (activities : List Activity) (st0 : SyncState) (a : Activity)
    (_ha : a ∈ activities)
    (hmem : pyStr a.activityId ∈ get_processed_ids st0.ledger) :
    ((runSync E history dryRun activities st0).2.all
      (fun e => !(evActId e == some (pyStr a.activityId)))) = true := by
  rw [List.all_eq_true]
  intro e he
  rw [Bool.not_eq_true', beq_eq_false_iff_ne]
  intro hEq
  simp only [runSync] at he
  split at he
  · simp at he
  · obtain ⟨b, hb, hbs⟩ := runLoop_actId E dryRun _ _ _ e he _ hEq
    have hb2 := List.mem_reverse.mp hb
    have hbsel : b ∈ activities.filter
        (fun x => !(decide (pyStr x.activityId ∈ get_processed_ids st0.ledger))) := by
      revert hb2
      split
      · exact fun h => List.mem_of_mem_drop h
      · exact id
    have hnot := (List.mem_filter.mp hbsel).2
    rw [← hbs] at hnot
    simp [hmem] at hnot

/-- Witness for C1: with activity 111 already recorded as `migrated`,
a run over [222, 111] emits no event for 111. -/
theorem C1_witness :
    ((runSync envOk false false [actOf "222", actOf "111"]
        ⟨some "TOK", some tokRec, [], [⟨"111", none, "migrated"⟩]⟩).2.all
      (fun e => !(evActId e == some (pyStr (actOf "111").activityId)))) =
      true :=
  C1_already_processed_skipped envOk false false
    [actOf "222", actOf "111"]
    ⟨some "TOK", some tokRec, [], [⟨"111", none, "migrated"⟩]⟩
    (actOf "111") (by decide) (by decide)

/-- C2: when every provider activity is new, has an id, downloads
succeed, and no upload is rejected, the uploads happen in exactly the
reverse of the provider order, i.e. oldest first. -/
theorem C2_oldest_first_upload_order (E : UploadEnv)
    (activities : List Activity) (st0 : SyncState)
    (hnew : ∀ a ∈ activities,
      pyStr a.activityId ∉ get_processed_ids st0.ledger)
    (h1 : ∀ a ∈ activities, truthy a.activityId = true)
    (h2 : ∀ a ∈ activities, E.downloadOk (pyStr a.activityId) = true)
    (h3 : ∀ a ∈ activities, E.status1 (pyStr a.activityId) ≠ 401) :
    uploadIds (runSync E false false activities st0).2 =
      (activities.reverse).map (fun a => pyStr a.activityId) := by
  have hfilter : activities.filter
      (fun x => !(decide (pyStr x.activityId ∈ get_processed_ids st0.ledger)))
      = activities :=
    List.filter_eq_self.mpr (fun x hx => by simpa using hnew x hx)
  simp only [runSync, hfilter, Bool.false_eq_true, if_false]
  split
  · next hemp =>
    have : activities = [] := by simpa [List.isEmpty_iff] using hemp
    subst this
    simp [uploadIds]
  · exact (runLoop_clean E 1 activities.reverse st0
      (fun b hb => h1 b (List.mem_reverse.mp hb))
      (fun b hb => h2 b (List.mem_reverse.mp hb))
      (fun b hb => h3 b (List.mem_reverse.mp hb))).1

/-- Witness for C2: provider order [C, B, A] yields uploads A, B, C. -/
theorem C2_witness :
    uploadIds (runSync envOk false false
        [actOf "C", actOf "B", actOf "A"] stBase).2 =
      (([actOf "C", actOf "B", actOf "A"].reverse).map
        (fun a => pyStr a.activityId)) :=
  C2_oldest_first_upload_order envOk [actOf "C", actOf "B", actOf "A"]
    stBase (by decide) (by decide) (by decide) (by decide)

/-- C6: in `--history` mode with more than 5 new activities, exactly the
5 oldest candidates (the tail of the newest-first filtered list) are
processed, each followed by a sleep of 10, where the normal mode sleeps
1 after each of the new activities. -/
theorem C6_history_mode_bounded (E : UploadEnv) (st0 : SyncState)
    (activities : List Activity)
    (h1 : ∀ a ∈ activities, truthy a.activityId = true)
    (h2 : ∀ a ∈ activities, E.downloadOk (pyStr a.activityId) = true)
    (h3 : ∀ a ∈ activities, E.status1 (pyStr a.activityId) ≠ 401)
    (hlen : 5 < (activities.filter (fun x =>
      !(decide (pyStr x.activityId ∈ get_processed_ids st0.ledger)))).length) :
    downloadIds (runSync E true false activities st0).2 =
      (((activities.filter (fun x =>
          !(decide (pyStr x.activityId ∈ get_processed_ids st0.ledger)))).drop
        ((activities.filter (fun x =>
          !(decide (pyStr x.activityId ∈ get_processed_ids st0.ledger)))).length
          - 5)).reverse).map (fun a => pyStr a.activityId)
    ∧ (downloadIds (runSync E true false activities st0).2).length = 5
    ∧ sleepTimes (runSync E true false activities st0).2 =
        List.replicate 5 10
    ∧ sleepTimes (runSync E false false activities st0).2 =
        List.replicate (activities.filter (fun x =>
          !(decide (pyStr x.activityId ∈ get_processed_ids st0.ledger)))).length
          1 := by
  set newActs := activities.filter (fun x =>
    !(decide (pyStr x.activityId ∈ get_processed_ids st0.ledger))) with hN
  have hsub : ∀ b ∈ newActs, b ∈ activities :=
    fun b hb => (List.mem_filter.mp hb).1
  have hne : newActs.isEmpty = false := by
    cases hnil : newActs with
    | nil => rw [hnil] at hlen; simp at hlen
    | cons c cs => rfl
  have hrunH : runSync E true false activities st0 =
      runLoop E false 10 st0 ((newActs.drop (newActs.length - 5)).reverse) := by
    simp only [runSync, ← hN]
    rw [hne]
    simp
  have hrunN : runSync E false false activities st0 =
      runLoop E false 1 st0 newActs.reverse := by
    simp only [runSync, ← hN]
    rw [hne]
    simp
  have hcleanH := runLoop_clean E 10
    ((newActs.drop (newActs.length - 5)).reverse) st0
    (fun b hb => h1 b (hsub b (List.mem_of_mem_drop (List.mem_reverse.mp hb))))
    (fun b hb => h2 b (hsub b (List.mem_of_mem_drop (List.mem_reverse.mp hb))))
    (fun b hb => h3 b (hsub b (List.mem_of_mem_drop (List.mem_reverse.mp hb))))
  have hcleanN := runLoop_clean E 1 newActs.reverse st0
    (fun b hb => h1 b (hsub b (List.mem_reverse.mp hb)))
    (fun b hb => h2 b (hsub b (List.mem_reverse.mp hb)))
    (fun b hb => h3 b (hsub b (List.mem_reverse.mp hb)))
  refine ⟨?_, ?_, ?_, ?_⟩
  · rw [hrunH]; exact hcleanH.2.1
  · rw [hrunH, hcleanH.2.1, List.length_map, List.length_reverse,
      List.length_drop]
    omega
  · rw [hrunH, hcleanH.2.2]
    congr 1
    rw [List.length_reverse, List.length_drop]
    omega
  · rw [hrunN, hcleanN.2.2, List.length_reverse]

/-- Witness for C6 on 8 new activities reported newest-first. -/
theorem C6_witness :
    downloadIds (runSync envOk true false actsEight stBase).2 =
      ["1", "2", "3", "4", "5"]
    ∧ (downloadIds (runSync envOk true false actsEight stBase).2).length = 5
    ∧ sleepTimes (runSync envOk true false actsEight stBase).2 =
        List.replicate 5 10
    ∧ sleepTimes (runSync envOk false false actsEight stBase).2 =
        List.replicate 8 1 := by
  have h := C6_history_mode_bounded envOk stBase actsEight
    (by decide) (by decide) (by decide) (by decide)
  exact ⟨h.1.trans (by decide), h.2.1, h.2.2.1, h.2.2.2.trans (by decide)⟩

/-- C3 counterexample: the first upload attempt of activity 555 returns
401, yet with no stored token record the run performs zero refresh
exchanges and only the single original upload attempt, contradicting
the unconditional single-refresh-and-retry reading. -/
theorem C3_counterexample :
    env401.status1 (pyStr (actOf "555").activityId) = 401
    ∧ ((processOne env401 false 1 stNoStored (actOf "555")).2.countP
        isRefreshEv) = 0
    ∧ ((processOne env401 false 1 stNoStored (actOf "555")).2.countP
        isUploadEv) = 1
    ∧ ((processOne ⟨fun _ => true, fun _ => 401, fun _ => 500, none, 0⟩
        false 1 stBase (actOf "555")).2.countP isRefreshEv) = 1
    ∧ ((processOne ⟨fun _ => true, fun _ => 401, fun _ => 500, none, 0⟩
        false 1 stBase (actOf "555")).2.countP isUploadEv) = 1 := by
  decide

/-- C3 amended: when the first upload attempt returns 401 and stored
tokens with a refresh token are available and the refresh exchange
succeeds, exactly one refresh call and exactly one retried upload with
the new access token happen, with no further attempts regardless of the
retry status; a first status other than 401 triggers neither refresh
nor retry. -/
theorem C3_amended_single_retry (E : UploadEnv) (n : Nat) (st : SyncState)
    (a : Activity) (tr : TokenRecord) (rt : String) (resp : TokenResp)
    (h1 : truthy a.activityId = true)
    (h2 : E.downloadOk (pyStr a.activityId) = true) :
    (st.stored = some tr → tr.refresh_token = some rt → rt ≠ "" →
      E.refreshResp = some resp → E.status1 (pyStr a.activityId) = 401 →
      (processOne E false n st a).2 =
        [Event.download (pyStr a.activityId),
         Event.upload (pyStr a.activityId) st.accessToken 401,
         Event.refreshCall rt,
         Event.upload (pyStr a.activityId)
           (refresh_tokens rt resp E.now).access_token
           (E.status2 (pyStr a.activityId)),
         Event.sleep n])
    ∧ (E.status1 (pyStr a.activityId) ≠ 401 →
      (processOne E false n st a).2 =
        [Event.download (pyStr a.activityId),
         Event.upload (pyStr a.activityId) st.accessToken
           (E.status1 (pyStr a.activityId)),
         Event.sleep n]) := by
  constructor
  · intro hst hrt hrtne hresp h401
    have htt : truthy tr.refresh_token = true := by
      rw [hrt]; simp [truthy, hrtne]
    have hpy : pyStr tr.refresh_token = rt := by rw [hrt]; rfl
    have h := congrArg Prod.snd
      (processOne_401_refresh E n st a tr resp h1 h2 hst htt hresp h401)
    rw [hpy] at h
    exact h
  · intro hne
    exact congrArg Prod.snd (processOne_clean E n st a h1 h2 hne)

/-- Witness for C3 amended: a 401 with stored refresh token "RT" leads
to one refresh and one successful retry with the new token; a 200 first
response leads to a single upload. -/
theorem C3_witness :
    (processOne env401 false 1 stBase (actOf "321")).2 =
      [Event.download "321", Event.upload "321" (some "TOK") 401,
       Event.refreshCall "RT", Event.upload "321" (some "NEWAT") 200,
       Event.sleep 1]
    ∧ (processOne envOk false 1 stBase (actOf "321")).2 =
      [Event.download "321", Event.upload "321" (some "TOK") 200,
       Event.sleep 1] := by
  have ha := C3_amended_single_retry env401 1 stBase (actOf "321") tokRec
    "RT" sampleResp (by decide) (by decide)
  have hb := C3_amended_single_retry envOk 1 stBase (actOf "321") tokRec
    "RT" sampleResp (by decide) (by decide)
  exact ⟨(ha.1 rfl rfl (by decide) rfl rfl).trans (by decide),
    (hb.2 (by decide)).trans (by decide)⟩

/-- C5 counterexample: a dry-run over activity 777 downloads it and
sends no upload, but the recorded ledger row carries status `uploaded`;
no row with status `dry-run` exists. -/
theorem C5_counterexample :
    downloadIds (runSync envOk false true [actOf "777"] stBase).2 = ["777"]
    ∧ ((runSync envOk false true [actOf "777"] stBase).2.all
        (fun e => !(isUploadEv e))) = true
    ∧ ((runSync envOk false true [actOf "777"] stBase).1.ledger.filter
        (fun r => r.status == "dry-run")) = []
    ∧ ledgerFind (runSync envOk false true [actOf "777"] stBase).1.ledger
        "777" = some ⟨"777", none, "uploaded"⟩ := by
  decide

/-- C5 amended: every activity processed in dry-run mode triggers no
upload request and gets a ledger entry with status `uploaded` (the
`add_processed_id` default), not `dry-run`. -/
theorem C5_amended_dry_run (E : UploadEnv) (n : Nat) (st : SyncState)
    (a : Activity)
    (h1 : truthy a.activityId = true)
    (h2 : E.downloadOk (pyStr a.activityId) = true) :
    ((processOne E true n st a).2.all (fun e => !(isUploadEv e))) = true
    ∧ ledgerFind (processOne E true n st a).1.ledger (pyStr a.activityId) =
        some ⟨pyStr a.activityId, none, "uploaded"⟩ := by
  have h := processOne_dry E n st a h1 h2
  constructor
  · rw [congrArg Prod.snd h]
    simp [isUploadEv]
  · rw [h]
    simp [ledgerFind, add_processed_id]

/-- Witness for C5 amended at activity 777. -/
theorem C5_witness :
    ((processOne envOk true 1 stBase (actOf "777")).2.all
      (fun e => !(isUploadEv e))) = true
    ∧ ledgerFind (processOne envOk true 1 stBase (actOf "777")).1.ledger
        (pyStr (actOf "777").activityId) =
      some ⟨pyStr (actOf "777").activityId, none, "uploaded"⟩ :=
  C5_amended_dry_run envOk 1 stBase (actOf "777") (by decide) (by decide)

/-- C10: a first upload status of 401 with no stored token record, or a
record without a refresh token, yields exactly the original attempt (no
refresh, no retry), writes nothing to the ledger, and still reaches the
inter-upload sleep so the run continues. -/
theorem C10_401_without_refresh_token (E : UploadEnv) (n : Nat)
    (st : SyncState) (a : Activity)
    (h1 : truthy a.activityId = true)
    (h2 : E.downloadOk (pyStr a.activityId) = true)
    (h401 : E.status1 (pyStr a.activityId) = 401)
    (h4 : st.stored = none ∨
      ∃ tr, st.stored = some tr ∧ truthy tr.refresh_token = false) :
    (processOne E false n st a).2 =
      [Event.download (pyStr a.activityId),
       Event.upload (pyStr a.activityId) st.accessToken 401,
       Event.sleep n]
    ∧ (processOne E false n st a).1.ledger = st.ledger := by
  rcases h4 with hst | ⟨tr, hst, hrt⟩
  · have h := processOne_401_noStored E n st a h1 h2 hst h401
    exact ⟨congrArg Prod.snd h, by rw [h]⟩
  · have h := processOne_401_noRefreshToken E n st a tr h1 h2 hst hrt h401
    exact ⟨congrArg Prod.snd h, by rw [h]⟩

/-- Witness for C10: a 401 with no stored token record. -/
theorem C10_witness :
    (processOne env401 false 1 stNoStored (actOf "42")).2 =
      [Event.download "42", Event.upload "42" (some "TOK") 401,
       Event.sleep 1]
    ∧ (processOne env401 false 1 stNoStored (actOf "42")).1.ledger =
        stNoStored.ledger :=
  C10_401_without_refresh_token env401 1 stNoStored (actOf "42")
    (by decide) (by decide) rfl (Or.inl rfl)

end GarminOsmSync
